import Mathlib

/-!
# Verification of the `load_data` preparation pipeline (`src/app.py`)

Shallow embedding of the data-cleaning and feature-derivation pipeline of
the product dashboard.  Modelling conventions:

* A raw CSV cell is `Option String` for the text columns (a missing cell is
  `none`, mirroring a pandas `NaN`); the two columns whose pandas value kind
  matters for boolean coercion (`is_best_seller`, `is_sponsored`) use the
  richer `RawCell` type (null / string / number / boolean).
* A missing *column* is modelled by a presence flag on the table, because
  pandas raises `KeyError` the moment an absent column is indexed
  (`df['original_price']`, app.py line 23, etc.).
* Machine floats are modelled by `ℚ`; pandas `NaN` is `Option.none`.
  The pandas expression `((orig - disc) / orig) * 100` produces `NaN`
  (for `0/0`) or a signed infinity (for `x/0`, `x ≠ 0`); `.fillna(0)` then
  maps `NaN` to `0` and `.clip(0, 100)` maps the infinities to the nearest
  bound.  `discountPct` reproduces exactly that case split over `ℚ`.
* `pd.to_numeric(..., errors="coerce")` is `toNumeric : String → Option ℚ`,
  a decimal parser (optional sign, digits, optional fraction, optional
  exponent, surrounding whitespace); unparseable text maps to `none`.
-/

namespace ETrend

/-- A raw pandas cell: missing (`NaN`), text, numeric, or boolean. -/
inductive RawCell where
  | null : RawCell
  | str : String → RawCell
  | num : ℚ → RawCell
  | boolean : Bool → RawCell
deriving DecidableEq, Repr

/-- Python truthiness, as applied element-wise by `Series.astype(bool)`
(app.py line 77).  `bool(float("nan"))` is `True`, so a missing cell maps
to `true`; a string is `true` iff non-empty; a number is `true` iff
non-zero. -/
def pyBool : RawCell → Bool
  | RawCell.null => true
  | RawCell.str s => s != ""
  | RawCell.num q => q != 0
  | RawCell.boolean b => b

/-- `Series.astype(str)` on a text column: a missing cell (`NaN`) prints as
the three-character string `nan`; a present cell is its own text. -/
def astypeStr : Option String → String
  | none => "nan"
  | some s => s

/-- Whitespace accepted around a numeric literal. -/
def isWS (c : Char) : Bool := c == ' ' || c == '\t' || c == '\n' || c == '\r'

/-- Value of a digit string (most significant first). -/
def digitsToNat (ds : List Char) : ℕ :=
  ds.foldl (fun a c => 10 * a + (c.toNat - 48)) 0

/-- Exponent digits: at least one digit, then only trailing whitespace. -/
def expDigits (cs : List Char) : Option ℕ :=
  if (cs.takeWhile Char.isDigit).isEmpty then none
  else if (cs.dropWhile Char.isDigit).all isWS then
    some (digitsToNat (cs.takeWhile Char.isDigit))
  else none

/-- Multiplier contributed by an exponent suffix (text after `e`/`E`). -/
def expFactor : List Char → Option ℚ
  | [] => none
  | c :: r =>
    if c = '-' then (expDigits r).map (fun e => 1 / 10 ^ e)
    else if c = '+' then (expDigits r).map (fun e => (10 : ℚ) ^ e)
    else (expDigits (c :: r)).map (fun e => (10 : ℚ) ^ e)

/-- Mantissa value from integer-part and fraction-part digit lists. -/
def mantVal (ip fp : List Char) : ℚ :=
  (digitsToNat ip : ℚ) + (digitsToNat fp : ℚ) / 10 ^ fp.length

/-- Split an optional `.fraction` prefix off the remaining text. -/
def fracPart (cs : List Char) : List Char × List Char :=
  match cs with
  | [] => ([], [])
  | c :: r =>
    if c = '.' then (r.takeWhile Char.isDigit, r.dropWhile Char.isDigit)
    else ([], c :: r)

/-- After the mantissa: end of text, an exponent suffix, or trailing
whitespace; anything else is unparseable. -/
def afterMant (m : ℚ) : List Char → Option ℚ
  | [] => some m
  | c :: r =>
    if c = 'e' ∨ c = 'E' then (expFactor r).map (fun e => m * e)
    else if (c :: r).all isWS then some m else none

/-- Unsigned numeric literal: digits, optional `.digits`, optional
exponent; at least one digit overall. -/
def parseUnsigned (cs : List Char) : Option ℚ :=
  let ip := cs.takeWhile Char.isDigit
  let rest := cs.dropWhile Char.isDigit
  let fp := (fracPart rest).1
  let rest2 := (fracPart rest).2
  if ip.isEmpty && fp.isEmpty then none
  else afterMant (mantVal ip fp) rest2

/-- Signed numeric literal: optional sign, then an unsigned literal. -/
def toNumericTrimmed : List Char → Option ℚ
  | [] => none
  | c :: r =>
    if c = '-' then (parseUnsigned r).map (fun q => -q)
    else if c = '+' then parseUnsigned r
    else parseUnsigned (c :: r)

/-- `pd.to_numeric(·, errors="coerce")` on one text cell: optional sign
after leading whitespace, then an unsigned literal. -/
def toNumericChars (cs : List Char) : Option ℚ :=
  toNumericTrimmed (cs.dropWhile isWS)

/-- String version of `toNumericChars`. -/
def toNumeric (s : String) : Option ℚ := toNumericChars s.toList

/-- `.str.split('-').str[0]` (app.py lines 22-23): the text before the
first `-`, the whole text when there is none. -/
def beforeDash (s : String) : String :=
  String.mk (s.toList.takeWhile (fun c => c != '-'))

/-- Price-cell pipeline of app.py lines 22-27: `astype(str)`, keep text
before the first `-`, then numeric coercion (`Free` and friends → null). -/
def parsePriceCell (c : Option String) : Option ℚ :=
  toNumeric (beforeDash (astypeStr c))

/-- `pd.to_numeric(·, errors="coerce")` on an optional cell (app.py lines
35-37): a missing cell stays null. -/
def parseNumCell (c : Option String) : Option ℚ := c.bind toNumeric

/-- One raw input row.  Cells of absent columns are irrelevant; column
absence itself is carried by the `RawTable` flags. -/
structure RawRow where
  discounted_price : Option String
  original_price : Option String
  product_rating : Option String
  total_reviews : Option String
  purchased_last_month : Option String
  product_category : Option String
  is_best_seller : RawCell
  has_coupon : Option String
  sustainability_tags : Option String
  is_sponsored : RawCell
  product_title : Option String
deriving DecidableEq, Repr

/-- The raw table: rows plus column-presence flags (header columns are
already whitespace-stripped, app.py line 17). -/
structure RawTable where
  rows : List RawRow
  hasDiscounted : Bool
  hasOriginalPrice : Bool
  hasRating : Bool
  hasReviews : Bool
  hasPurchased : Bool
  hasCategory : Bool
  hasBestSeller : Bool
  hasCoupon : Bool
  hasSustainability : Bool
  hasSponsored : Bool
  hasTitle : Bool
deriving DecidableEq, Repr

/-- One cleaned output row (the dataframe returned by `load_data`).
`product_rating` stays optional because an all-null rating column is
filled with a null mean and remains null. -/
structure CleanRow where
  discounted_price : ℚ
  original_price : ℚ
  product_rating : Option ℚ
  total_reviews : ℚ
  purchased_last_month : ℚ
  product_category : String
  est_revenue : ℚ
  discount_pct : ℚ
  is_best_seller : Bool
  has_coupon_bool : Bool
  is_sustainable : Bool
  is_sponsored : RawCell
  product_title : Option String
deriving DecidableEq, Repr

/-- `.clip(0, 100)` on a finite value. -/
def clip0100 (x : ℚ) : ℚ := min 100 (max 0 x)

/-- `Discount %` (app.py lines 63-64):
`((orig - disc) / orig * 100).fillna(0).clip(0, 100)`.
When `orig = 0` the float quotient is `NaN` (if `disc = 0`, filled to 0),
`-∞` (if `disc > 0`, clipped to 0) or `+∞` (if `disc < 0`, clipped
to 100); otherwise the finite value is clipped to `[0, 100]`. -/
def discountPct (orig disc : ℚ) : ℚ :=
  if orig = 0 then
    if disc = 0 then 0
    else if 0 < disc then 0
    else 100
  else clip0100 ((orig - disc) / orig * 100)

/-- `fillna(False)` on the `is_sponsored` column (app.py line 100): null
cells become boolean `false`, every other cell is left unchanged. -/
def sponsoredFill : RawCell → RawCell
  | RawCell.null => RawCell.boolean false
  | c => c

/-- Rows surviving `dropna(subset=['discounted_price'])` (app.py line 32):
exactly those whose discounted price parses. -/
def keptRows (t : RawTable) : List RawRow :=
  t.rows.filter (fun r => (parsePriceCell r.discounted_price).isSome)

/-- `df['product_rating'].mean()` (app.py line 44): mean of the non-null
parsed ratings of the kept rows; null (`NaN`) when there are none. -/
def meanRatingOf (t : RawTable) : Option ℚ :=
  let vs := (keptRows t).filterMap (fun r => parseNumCell r.product_rating)
  if vs.isEmpty then none else some (vs.sum / (vs.length : ℚ))

/-- Warning text for a missing category column (app.py line 54). -/
def catWarning : String := "missing column product_category"

/-- Warning text for a missing best-seller column (app.py line 73). -/
def bsWarning : String := "missing column is_best_seller"

/-- Warning text for a missing coupon column (app.py line 81). -/
def couponWarning : String := "missing column has_coupon"

/-- Warning text for a missing sustainability column (app.py line 88). -/
def sustWarning : String := "missing column sustainability_tags"

/-- Warning text for a missing sponsored column (app.py line 96). -/
def sponsWarning : String := "missing column is_sponsored"

/-- The non-fatal notices `load_data` emits (`st.error` calls on app.py
lines 54, 73, 81, 88, 96), one per absent optional column. -/
def warningsOf (t : RawTable) : List String :=
  (if t.hasCategory then [] else [catWarning]) ++
  (if t.hasBestSeller then [] else [bsWarning]) ++
  (if t.hasCoupon then [] else [couponWarning]) ++
  (if t.hasSustainability then [] else [sustWarning]) ++
  (if t.hasSponsored then [] else [sponsWarning])

/-- One cleaned row built from a raw row (app.py lines 22-100), given the
table-wide mean rating. -/
def mkCleanRow (t : RawTable) (meanR : Option ℚ) (r : RawRow) : CleanRow :=
  let disc := (parsePriceCell r.discounted_price).getD 0
  let orig := (parsePriceCell r.original_price).getD disc
  let purchased := (parseNumCell r.purchased_last_month).getD 0
  { discounted_price := disc
    original_price := orig
    product_rating :=
      match parseNumCell r.product_rating with
      | some v => some v
      | none => meanR
    total_reviews := (parseNumCell r.total_reviews).getD 0
    purchased_last_month := purchased
    product_category :=
      if t.hasCategory then r.product_category.getD "Unknown" else "Unknown"
    est_revenue := disc * purchased
    discount_pct := discountPct orig disc
    is_best_seller := if t.hasBestSeller then pyBool r.is_best_seller else false
    has_coupon_bool :=
      if t.hasCoupon then decide (3 < (astypeStr r.has_coupon).length) else false
    is_sustainable :=
      if t.hasSustainability then r.sustainability_tags.isSome else false
    is_sponsored :=
      if t.hasSponsored then sponsoredFill r.is_sponsored else RawCell.str "Unknown"
    product_title := if t.hasTitle then r.product_title else none }

/-- The whole of `load_data` (app.py lines 9-104).  Indexing an absent
column raises `KeyError` (a fatal error caught at app.py lines 113-116);
the five guarded columns instead produce a warning and a default. -/
def loadData (t : RawTable) : Except String (List String × List CleanRow) :=
  if t.hasDiscounted then
    if t.hasOriginalPrice then
      if t.hasRating then
        if t.hasReviews then
          if t.hasPurchased then
            Except.ok (warningsOf t, (keptRows t).map (mkCleanRow t (meanRatingOf t)))
          else Except.error "KeyError: purchased_last_month"
        else Except.error "KeyError: total_reviews"
      else Except.error "KeyError: product_rating"
    else Except.error "KeyError: original_price"
  else Except.error "KeyError: discounted_price"

/-- A raw row with every cell missing. -/
def blankRow : RawRow :=
  ⟨none, none, none, none, none, none, RawCell.null, none, none, RawCell.null, none⟩

/-- A table with every column present. -/
def mkTable (rs : List RawRow) : RawTable :=
  ⟨rs, true, true, true, true, true, true, true, true, true, true, true⟩

deriving instance DecidableEq for Except

/-! ## Concrete example data -/

/-- Example row: range-priced, fully populated. -/
def wRow1 : RawRow :=
  { blankRow with
    discounted_price := some "89.68-99.99"
    original_price := some "120"
    product_rating := some "4.5"
    total_reviews := some "10"
    purchased_last_month := some "3"
    product_category := some "Toys"
    is_best_seller := RawCell.str "False"
    has_coupon := some "Save 20% with coupon"
    sustainability_tags := some "eco"
    is_sponsored := RawCell.str "yes"
    product_title := some "Widget" }

/-- Example row: unparseable price, dropped by the pipeline. -/
def wRow2 : RawRow := { blankRow with discounted_price := some "Free" }

/-- Example row: price only, missing original price, short coupon text. -/
def wRow3 : RawRow :=
  { blankRow with discounted_price := some "50.00", has_coupon := some "no" }

/-- A three-row example table with all columns present. -/
def exTable : RawTable := mkTable [wRow1, wRow2, wRow3]

/-- Cleaned output of `wRow1`:  89.68 = 2242/25, revenue 6726/25,
discount percentage (120 − 89.68)/120·100 = 379/15. -/
def exClean1 : CleanRow :=
  ⟨2242 / 25, 120, some (9 / 2), 10, 3, "Toys", 6726 / 25, 379 / 15,
    true, true, true, RawCell.str "yes", some "Widget"⟩

/-- Cleaned output of `wRow3`: original price backfilled to 50, rating
filled with the table mean 9/2, coupon text `no` too short. -/
def exClean3 : CleanRow :=
  ⟨50, 50, some (9 / 2), 0, 0, "Unknown", 0, 0,
    true, false, false, RawCell.boolean false, none⟩

/-- A table lacking the `original_price` column. -/
def noOrigTable : RawTable := { mkTable [blankRow] with hasOriginalPrice := false }

/-- A table with the five required numeric columns but none of the five
guarded optional columns (nor `product_title`). -/
def allMissingTable : RawTable :=
  ⟨[{ blankRow with discounted_price := some "5" }],
    true, true, true, true, true, false, false, false, false, false, false⟩

/-- A one-row table whose only rating cell is missing. -/
def allNullRatingTable : RawTable :=
  mkTable [{ blankRow with discounted_price := some "5" }]

/-- The cleaned output row of `allNullRatingTable`: its rating stays
null because the fill value (the mean of an empty set) is itself null. -/
def c5Row : CleanRow :=
  ⟨5, 5, none, 0, 0, "Unknown", 0, 0, true, false, false,
    RawCell.boolean false, none⟩

/-- A one-row table whose `is_sponsored` cell holds the text `yes`. -/
def sponsStrTable : RawTable :=
  mkTable
    [{ blankRow with
       discounted_price := some "5"
       is_sponsored := RawCell.str "yes" }]

/-- The cleaned output row of `sponsStrTable`: the sponsored cell passes
through as text, not as a boolean. -/
def c6Row : CleanRow :=
  ⟨5, 5, none, 0, 0, "Unknown", 0, 0, true, false, false,
    RawCell.str "yes", none⟩

/-! ## Field-projection lemmas for `mkCleanRow` -/

@[simp] lemma mkCleanRow_discounted (t : RawTable) (m : Option ℚ) (r : RawRow) :
    (mkCleanRow t m r).discounted_price = (parsePriceCell r.discounted_price).getD 0 := rfl

@[simp] lemma mkCleanRow_original (t : RawTable) (m : Option ℚ) (r : RawRow) :
    (mkCleanRow t m r).original_price =
      (parsePriceCell r.original_price).getD ((parsePriceCell r.discounted_price).getD 0) := rfl

@[simp] lemma mkCleanRow_rating (t : RawTable) (m : Option ℚ) (r : RawRow) :
    (mkCleanRow t m r).product_rating =
      match parseNumCell r.product_rating with
      | some v => some v
      | none => m := rfl

@[simp] lemma mkCleanRow_discount_pct (t : RawTable) (m : Option ℚ) (r : RawRow) :
    (mkCleanRow t m r).discount_pct =
      discountPct ((parsePriceCell r.original_price).getD ((parsePriceCell r.discounted_price).getD 0))
        ((parsePriceCell r.discounted_price).getD 0) := rfl

@[simp] lemma mkCleanRow_category (t : RawTable) (m : Option ℚ) (r : RawRow) :
    (mkCleanRow t m r).product_category =
      if t.hasCategory then r.product_category.getD "Unknown" else "Unknown" := rfl

@[simp] lemma mkCleanRow_best_seller (t : RawTable) (m : Option ℚ) (r : RawRow) :
    (mkCleanRow t m r).is_best_seller =
      if t.hasBestSeller then pyBool r.is_best_seller else false := rfl

@[simp] lemma mkCleanRow_coupon (t : RawTable) (m : Option ℚ) (r : RawRow) :
    (mkCleanRow t m r).has_coupon_bool =
      if t.hasCoupon then decide (3 < (astypeStr r.has_coupon).length) else false := rfl

@[simp] lemma mkCleanRow_sustainable (t : RawTable) (m : Option ℚ) (r : RawRow) :
    (mkCleanRow t m r).is_sustainable =
      if t.hasSustainability then r.sustainability_tags.isSome else false := rfl

@[simp] lemma mkCleanRow_sponsored (t : RawTable) (m : Option ℚ) (r : RawRow) :
    (mkCleanRow t m r).is_sponsored =
      if t.hasSponsored then sponsoredFill r.is_sponsored else RawCell.str "Unknown" := rfl

/-! ## Non-negativity of parsed prices

The split on `-` happens before numeric coercion, so the text reaching the
parser never contains a minus sign, and every parsed price is ≥ 0. -/

lemma mantVal_nonneg (ip fp : List Char) : 0 ≤ mantVal ip fp := by
  unfold mantVal
  positivity

lemma expFactor_nonneg {cs : List Char} {e : ℚ} (h : expFactor cs = some e) : 0 ≤ e := by
  cases cs with
  | nil => simp [expFactor] at h
  | cons c r =>
    simp only [expFactor] at h
    split_ifs at h <;>
      obtain ⟨k, -, rfl⟩ := Option.map_eq_some'.1 h <;> positivity

lemma afterMant_nonneg {m : ℚ} (hm : 0 ≤ m) {cs : List Char} {q : ℚ}
    (h : afterMant m cs = some q) : 0 ≤ q := by
  cases cs with
  | nil =>
    simp only [afterMant, Option.some.injEq] at h
    exact h ▸ hm
  | cons c r =>
    simp only [afterMant] at h
    split_ifs at h
    · obtain ⟨e, he, rfl⟩ := Option.map_eq_some'.1 h
      exact mul_nonneg hm (expFactor_nonneg he)
    · simp only [Option.some.injEq] at h
      exact h ▸ hm

lemma parseUnsigned_nonneg {cs : List Char} {q : ℚ} (h : parseUnsigned cs = some q) : 0 ≤ q := by
  simp only [parseUnsigned] at h
  split_ifs at h
  exact afterMant_nonneg (mantVal_nonneg _ _) h

lemma toNumericChars_nonneg {cs : List Char} (hnd : ('-' : Char) ∉ cs) {q : ℚ}
    (h : toNumericChars cs = some q) : 0 ≤ q := by
  unfold toNumericChars at h
  cases hd : cs.dropWhile isWS with
  | nil => rw [hd] at h; cases h
  | cons c r =>
    rw [hd] at h
    have hc : ¬ c = '-' := by
      intro hceq
      apply hnd
      refine (List.dropWhile_sublist isWS).subset ?_
      rw [hd, hceq]
      exact List.mem_cons_self _ _
    simp only [toNumericTrimmed, if_neg hc] at h
    split_ifs at h
    · exact parseUnsigned_nonneg h
    · exact parseUnsigned_nonneg h

lemma beforeDash_no_dash (s : String) : ('-' : Char) ∉ (beforeDash s).toList := by
  intro hmem
  have hmem' : ('-' : Char) ∈ s.toList.takeWhile (fun c => c != '-') := hmem
  have := List.mem_takeWhile_imp hmem'
  simp at this

lemma parsePriceCell_nonneg {c : Option String} {q : ℚ} (h : parsePriceCell c = some q) :
    0 ≤ q := by
  unfold parsePriceCell toNumeric at h
  exact toNumericChars_nonneg (beforeDash_no_dash _) h

lemma parsePrice_getD_nonneg (c : Option String) : 0 ≤ (parsePriceCell c).getD 0 := by
  cases hq : parsePriceCell c with
  | none => simp
  | some q => simpa using parsePriceCell_nonneg hq

lemma parsePrice_getD_nonneg' (c : Option String) {d : ℚ} (hd : 0 ≤ d) :
    0 ≤ (parsePriceCell c).getD d := by
  cases hq : parsePriceCell c with
  | none => simpa using hd
  | some q => simpa using parsePriceCell_nonneg hq

/-! ## Discount-percentage lemmas -/

lemma discountPct_nonneg (o d : ℚ) : 0 ≤ discountPct o d := by
  unfold discountPct clip0100
  split_ifs <;> norm_num

lemma discountPct_le_100 (o d : ℚ) : discountPct o d ≤ 100 := by
  unfold discountPct clip0100
  split_ifs <;> norm_num

lemma discountPct_zero_orig {d : ℚ} (hd : 0 ≤ d) : discountPct 0 d = 0 := by
  unfold discountPct
  rw [if_pos rfl]
  split_ifs with h1 h2
  · rfl
  · rfl
  · exact absurd (lt_of_le_of_ne hd (Ne.symm h1)) h2

lemma discountPct_of_ne_zero {o : ℚ} (d : ℚ) (ho : o ≠ 0) :
    discountPct o d = min 100 (max 0 ((o - d) / o * 100)) := by
  unfold discountPct clip0100
  rw [if_neg ho]

lemma discountPct_self (d : ℚ) : discountPct d d = 0 := by
  by_cases hd : d = 0
  · subst hd
    exact discountPct_zero_orig le_rfl
  · rw [discountPct_of_ne_zero d hd]
    simp

/-! ## Inversion of a successful load -/

lemma loadData_ok_inv {t : RawTable} {w : List String} {rows : List CleanRow}
    (h : loadData t = Except.ok (w, rows)) :
    w = warningsOf t ∧ rows = (keptRows t).map (mkCleanRow t (meanRatingOf t)) := by
  unfold loadData at h
  split_ifs at h
  simp only [Except.ok.injEq, Prod.mk.injEq] at h
  exact ⟨h.1.symm, h.2.symm⟩

/-! ## Splitting on the first dash -/

lemma takeWhile_append_of_all {α : Type} (p : α → Bool) {l₁ : List α} (l₂ : List α)
    (h : ∀ x ∈ l₁, p x = true) : (l₁ ++ l₂).takeWhile p = l₁ ++ l₂.takeWhile p := by
  induction l₁ with
  | nil => simp
  | cons a tl ih =>
    have ha : p a = true := h a (List.mem_cons_self _ _)
    simp only [List.cons_append, List.takeWhile_cons, ha, if_true]
    rw [ih (fun x hx => h x (List.mem_cons_of_mem _ hx))]

lemma beforeDash_of_split (low high : String) (hlow : ('-' : Char) ∉ low.toList) :
    beforeDash (low ++ "-" ++ high) = String.mk low.toList := by
  unfold beforeDash
  congr 1
  have hdata : (low ++ "-" ++ high).toList = low.toList ++ '-' :: high.toList := by
    show (low ++ "-" ++ high).data = low.data ++ '-' :: high.data
    simp [String.data_append]
  rw [hdata, takeWhile_append_of_all _ _ (fun x hx => by
    simp only [bne_iff_ne, ne_eq, decide_eq_true_eq]
    intro hxeq
    exact hlow (hxeq ▸ hx))]
  simp [List.takeWhile_cons]

/-! ## Claims -/

section ClaimProofs

attribute [local semireducible] Rat.mul Rat.add Rat.inv Rat.sub

/-- C1: in every successfully prepared output, each row's
`discounted_price` is present (the output field is total, not optional)
and non-negative, and the output rows are exactly the input rows whose
`discounted_price` parses to a number — the `dropna` on
`discounted_price` (app.py line 32) is the only row-removing step. -/
theorem C1_discounted_price_total {t : RawTable} {w : List String} {rows : List CleanRow}
    (h : loadData t = Except.ok (w, rows)) :
    (∀ cr ∈ rows, 0 ≤ cr.discounted_price) ∧
    rows = (keptRows t).map (mkCleanRow t (meanRatingOf t)) := by
  obtain ⟨-, hrows⟩ := loadData_ok_inv h
  subst hrows
  refine ⟨?_, rfl⟩
  intro cr hcr
  obtain ⟨r, hr, rfl⟩ := List.mem_map.1 hcr
  rw [mkCleanRow_discounted]
  exact parsePrice_getD_nonneg _

/-- Witness for C1 on the concrete table `exTable`: the `Free` row is
dropped, the two parseable rows survive with non-negative prices. -/
theorem C1_witness :
    (0 ≤ exClean1.discounted_price ∧ 0 ≤ exClean3.discounted_price) ∧
    [exClean1, exClean3] = (keptRows exTable).map (mkCleanRow exTable (meanRatingOf exTable)) := by
  have h := @C1_discounted_price_total exTable [] [exClean1, exClean3] (by decide)
  exact ⟨⟨h.1 exClean1 (by simp), h.1 exClean3 (by simp)⟩, h.2⟩

/-- C2: for every output row, `discount_pct` lies in `[0, 100]`; when the
original price is non-zero it equals the formula
`(original − discounted) / original · 100` clamped to `[0, 100]`, and when
the original price is zero (undefined quotient) it equals 0. -/
theorem C2_discount_percent {t : RawTable} {w : List String} {rows : List CleanRow}
    (h : loadData t = Except.ok (w, rows)) :
    ∀ cr ∈ rows,
      (0 ≤ cr.discount_pct ∧ cr.discount_pct ≤ 100) ∧
      (cr.original_price ≠ 0 →
        cr.discount_pct =
          min 100 (max 0 ((cr.original_price - cr.discounted_price) / cr.original_price * 100))) ∧
      (cr.original_price = 0 → cr.discount_pct = 0) := by
  obtain ⟨-, hrows⟩ := loadData_ok_inv h
  subst hrows
  intro cr hcr
  obtain ⟨r, hr, rfl⟩ := List.mem_map.1 hcr
  rw [mkCleanRow_discount_pct, mkCleanRow_original, mkCleanRow_discounted]
  have hd : 0 ≤ (parsePriceCell r.discounted_price).getD 0 := parsePrice_getD_nonneg _
  refine ⟨⟨discountPct_nonneg _ _, discountPct_le_100 _ _⟩, ?_, ?_⟩
  · intro ho
    exact discountPct_of_ne_zero _ ho
  · intro ho
    rw [ho]
    exact discountPct_zero_orig hd

/-- Witness for C2 on `exTable`: the first output row has original price
120 ≠ 0 and its discount percentage equals the clamped formula. -/
theorem C2_witness :
    (0 ≤ exClean1.discount_pct ∧ exClean1.discount_pct ≤ 100) ∧
    exClean1.discount_pct =
      min 100 (max 0 ((exClean1.original_price - exClean1.discounted_price) /
        exClean1.original_price * 100)) := by
  have h := @C2_discount_percent exTable [] [exClean1, exClean3] (by decide)
  have h1 := h exClean1 (by simp)
  exact ⟨h1.1, h1.2.1 (by decide)⟩

/-- C4: for the price fields, the raw text is cut at the first `-` before
numeric parsing; the kept prefix parses as a decimal, and non-numeric
content (such as `Free`, or a missing cell) yields null rather than a row
failure.  In particular `89.68-99.99` parses to 89.68. -/
theorem C4_price_range_parsing (low high : String) (hlow : ('-' : Char) ∉ low.toList) :
    parsePriceCell (some (low ++ "-" ++ high)) = toNumeric low ∧
    parsePriceCell (some "89.68-99.99") = some (8968 / 100) ∧
    parsePriceCell (some "Free") = none ∧
    parsePriceCell none = none := by
  refine ⟨?_, by decide, by decide, by decide⟩
  show toNumeric (beforeDash (astypeStr (some (low ++ "-" ++ high)))) = toNumeric low
  rw [show astypeStr (some (low ++ "-" ++ high)) = low ++ "-" ++ high from rfl,
    beforeDash_of_split low high hlow]
  rfl

/-- Witness for C4 at the spec's example: `89.68-99.99` keeps the prefix
before the dash, and `Free` parses to null. -/
theorem C4_witness :
    parsePriceCell (some ("89.68" ++ "-" ++ "99.99")) = toNumeric "89.68" ∧
    parsePriceCell (some "Free") = none :=
  ⟨(C4_price_range_parsing "89.68" "99.99" (by decide)).1,
   (C4_price_range_parsing "89.68" "99.99" (by decide)).2.2.1⟩

/-- C8: in every surviving row whose raw `original_price` did not parse,
the output `original_price` is backfilled with that row's
`discounted_price` (app.py line 30), which forces `discount_pct = 0`. -/
theorem C8_backfill_original {t : RawTable} {w : List String} {rows : List CleanRow}
    (h : loadData t = Except.ok (w, rows)) :
    rows = (keptRows t).map (mkCleanRow t (meanRatingOf t)) ∧
    ∀ r ∈ keptRows t, parsePriceCell r.original_price = none →
      (mkCleanRow t (meanRatingOf t) r).original_price =
        (mkCleanRow t (meanRatingOf t) r).discounted_price ∧
      (mkCleanRow t (meanRatingOf t) r).discount_pct = 0 := by
  obtain ⟨-, hrows⟩ := loadData_ok_inv h
  refine ⟨hrows, ?_⟩
  intro r hr hnone
  constructor
  · rw [mkCleanRow_original, mkCleanRow_discounted, hnone]
    rfl
  · rw [mkCleanRow_discount_pct, hnone]
    exact discountPct_self _

/-- Witness for C8 at the spec's example: missing original price with
discounted price 50.00 yields original price 50 and zero discount. -/
theorem C8_witness :
    ((mkCleanRow exTable (meanRatingOf exTable) wRow3).original_price =
      (mkCleanRow exTable (meanRatingOf exTable) wRow3).discounted_price ∧
     (mkCleanRow exTable (meanRatingOf exTable) wRow3).discount_pct = 0) ∧
    (mkCleanRow exTable (meanRatingOf exTable) wRow3).original_price = 50 := by
  have h := @C8_backfill_original exTable [] [exClean1, exClean3] (by decide)
  exact ⟨h.2 wRow3 (by decide) (by decide), by decide⟩

/-- C9: the preparation pipeline is a pure function of the raw table —
two runs on identical raw input produce identical results (warnings and
cleaned rows alike). -/
theorem C9_deterministic (t₁ t₂ : RawTable) (h : t₁ = t₂) :
    loadData t₁ = loadData t₂ := by
  rw [h]

/-- Witness for C9 at the concrete table `exTable`. -/
theorem C9_witness : loadData exTable = loadData exTable :=
  C9_deterministic exTable exTable rfl

/-- Counterexample to C3: dropping only the `original_price` column makes
the load fail with a fatal `KeyError` (raised by `df['original_price']`,
app.py line 23), instead of synthesizing a default column with a
non-fatal warning. -/
theorem C3_counterexample :
    loadData noOrigTable = Except.error "KeyError: original_price" := by decide

/-- C3 (amended): only `product_category`, `is_best_seller`, `has_coupon`,
`sustainability_tags` and `is_sponsored` are optional-with-fallback (a
default column and one warning each); a missing `original_price`,
`product_rating`, `total_reviews` or `purchased_last_month` column makes
the load fail with a `KeyError`, and a missing `product_title` column is
simply ignored by the preparation (no default, no warning — `warningsOf`
never mentions it). -/
theorem C3_missing_columns (t : RawTable) :
    (t.hasDiscounted = true → t.hasOriginalPrice = false →
      loadData t = Except.error "KeyError: original_price") ∧
    (t.hasDiscounted = true → t.hasOriginalPrice = true → t.hasRating = false →
      loadData t = Except.error "KeyError: product_rating") ∧
    (t.hasDiscounted = true → t.hasOriginalPrice = true → t.hasRating = true →
      t.hasReviews = false → loadData t = Except.error "KeyError: total_reviews") ∧
    (t.hasDiscounted = true → t.hasOriginalPrice = true → t.hasRating = true →
      t.hasReviews = true → t.hasPurchased = false →
      loadData t = Except.error "KeyError: purchased_last_month") ∧
    (t.hasDiscounted = true → t.hasOriginalPrice = true → t.hasRating = true →
      t.hasReviews = true → t.hasPurchased = true →
      loadData t = Except.ok (warningsOf t, (keptRows t).map (mkCleanRow t (meanRatingOf t))) ∧
      (t.hasCategory = false → catWarning ∈ warningsOf t ∧
        ∀ cr ∈ (keptRows t).map (mkCleanRow t (meanRatingOf t)),
          cr.product_category = "Unknown") ∧
      (t.hasBestSeller = false → bsWarning ∈ warningsOf t ∧
        ∀ cr ∈ (keptRows t).map (mkCleanRow t (meanRatingOf t)),
          cr.is_best_seller = false) ∧
      (t.hasCoupon = false → couponWarning ∈ warningsOf t ∧
        ∀ cr ∈ (keptRows t).map (mkCleanRow t (meanRatingOf t)),
          cr.has_coupon_bool = false) ∧
      (t.hasSustainability = false → sustWarning ∈ warningsOf t ∧
        ∀ cr ∈ (keptRows t).map (mkCleanRow t (meanRatingOf t)),
          cr.is_sustainable = false) ∧
      (t.hasSponsored = false → sponsWarning ∈ warningsOf t ∧
        ∀ cr ∈ (keptRows t).map (mkCleanRow t (meanRatingOf t)),
          cr.is_sponsored = RawCell.str "Unknown")) := by
  refine ⟨?_, ?_, ?_, ?_, ?_⟩
  · intro h1 h2
    simp [loadData, h1, h2]
  · intro h1 h2 h3
    simp [loadData, h1, h2, h3]
  · intro h1 h2 h3 h4
    simp [loadData, h1, h2, h3, h4]
  · intro h1 h2 h3 h4 h5
    simp [loadData, h1, h2, h3, h4, h5]
  · intro h1 h2 h3 h4 h5
    refine ⟨by simp [loadData, h1, h2, h3, h4, h5], ?_, ?_, ?_, ?_, ?_⟩
    · intro hf
      refine ⟨by simp [warningsOf, hf], ?_⟩
      intro cr hcr
      obtain ⟨r, hr, rfl⟩ := List.mem_map.1 hcr
      simp [hf]
    · intro hf
      refine ⟨by simp [warningsOf, hf], ?_⟩
      intro cr hcr
      obtain ⟨r, hr, rfl⟩ := List.mem_map.1 hcr
      simp [hf]
    · intro hf
      refine ⟨by simp [warningsOf, hf], ?_⟩
      intro cr hcr
      obtain ⟨r, hr, rfl⟩ := List.mem_map.1 hcr
      simp [hf]
    · intro hf
      refine ⟨by simp [warningsOf, hf], ?_⟩
      intro cr hcr
      obtain ⟨r, hr, rfl⟩ := List.mem_map.1 hcr
      simp [hf]
    · intro hf
      refine ⟨by simp [warningsOf, hf], ?_⟩
      intro cr hcr
      obtain ⟨r, hr, rfl⟩ := List.mem_map.1 hcr
      simp [hf]

/-- Witness for the amended C3: `noOrigTable` fails fatally, while
`allMissingTable` (all five guarded columns absent) loads successfully
and reports the category warning. -/
theorem C3_witness :
    loadData noOrigTable = Except.error "KeyError: original_price" ∧
    loadData allMissingTable =
      Except.ok (warningsOf allMissingTable,
        (keptRows allMissingTable).map
          (mkCleanRow allMissingTable (meanRatingOf allMissingTable))) ∧
    catWarning ∈ warningsOf allMissingTable := by
  have h1 := (C3_missing_columns noOrigTable).1 rfl rfl
  have h2 := (C3_missing_columns allMissingTable).2.2.2.2 rfl rfl rfl rfl rfl
  exact ⟨h1, h2.1, (h2.2.1 rfl).1⟩

/-- Counterexample to C5: on a table whose every `product_rating` cell is
null, the fill value (the mean of no values) is itself null, so the
output row still carries a null rating — no explicit default such as 0 is
substituted. -/
theorem C5_counterexample :
    loadData allNullRatingTable = Except.ok ([], [c5Row]) ∧
    c5Row.product_rating = none := by
  exact ⟨by decide, rfl⟩

/-- C5 (amended): null ratings are filled with the mean of the non-null
parsed ratings of the surviving rows, computed before any substitution;
when every rating is null that mean is itself null and the output
ratings remain null (no explicit default is substituted). -/
theorem C5_rating_fill {t : RawTable} {w : List String} {rows : List CleanRow}
    (h : loadData t = Except.ok (w, rows)) :
    rows.map (fun cr => cr.product_rating) =
      (keptRows t).map (fun r =>
        match parseNumCell r.product_rating with
        | some v => some v
        | none => meanRatingOf t) ∧
    ((keptRows t).filterMap (fun r => parseNumCell r.product_rating) = [] →
      ∀ cr ∈ rows, cr.product_rating = none) := by
  obtain ⟨-, hrows⟩ := loadData_ok_inv h
  subst hrows
  constructor
  · rw [List.map_map]
    apply List.map_congr_left
    intro r hr
    rfl
  · intro hnil cr hcr
    obtain ⟨r, hr, rfl⟩ := List.mem_map.1 hcr
    rw [mkCleanRow_rating]
    have hnone : parseNumCell r.product_rating = none :=
      List.filterMap_eq_nil_iff.1 hnil r hr
    rw [hnone]
    show meanRatingOf t = none
    simp [meanRatingOf, hnil]

/-- Witness for the amended C5 on `allNullRatingTable`: the single kept
row has a null rating in the output. -/
theorem C5_witness :
    [c5Row].map (fun cr => cr.product_rating) =
      (keptRows allNullRatingTable).map (fun r =>
        match parseNumCell r.product_rating with
        | some v => some v
        | none => meanRatingOf allNullRatingTable) ∧
    c5Row.product_rating = none := by
  have h := @C5_rating_fill allNullRatingTable [] [c5Row] (by decide)
  exact ⟨h.1, h.2 (by decide) c5Row (by simp)⟩

/-- Counterexample to C6: with the `is_sponsored` column present, a
non-null text cell `yes` passes through to the output unchanged — it is
not coerced to a boolean (app.py line 100 only fills nulls). -/
theorem C6_counterexample :
    loadData sponsStrTable = Except.ok ([], [c6Row]) ∧
    c6Row.is_sponsored = RawCell.str "yes" ∧
    c6Row.is_sponsored ≠ RawCell.boolean true ∧
    c6Row.is_sponsored ≠ RawCell.boolean false := by
  exact ⟨by decide, rfl, by decide, by decide⟩

/-- C6 (amended): when the `is_sponsored` column is absent, every output
row carries the literal `Unknown` and a warning is emitted; when it is
present, null cells are filled with boolean `false` and every non-null
cell is passed through unchanged (no coercion to boolean). -/
theorem C6_sponsored_fill {t : RawTable} {w : List String} {rows : List CleanRow}
    (h : loadData t = Except.ok (w, rows)) :
    (t.hasSponsored = false → sponsWarning ∈ w ∧
      ∀ cr ∈ rows, cr.is_sponsored = RawCell.str "Unknown") ∧
    (t.hasSponsored = true →
      rows.map (fun cr => cr.is_sponsored) =
        (keptRows t).map (fun r => sponsoredFill r.is_sponsored)) ∧
    sponsoredFill RawCell.null = RawCell.boolean false ∧
    (∀ c : RawCell, c ≠ RawCell.null → sponsoredFill c = c) := by
  obtain ⟨hw, hrows⟩ := loadData_ok_inv h
  subst hw
  subst hrows
  refine ⟨?_, ?_, rfl, ?_⟩
  · intro hsp
    refine ⟨by simp [warningsOf, hsp], ?_⟩
    intro cr hcr
    obtain ⟨r, hr, rfl⟩ := List.mem_map.1 hcr
    simp [hsp]
  · intro hsp
    rw [List.map_map]
    apply List.map_congr_left
    intro r hr
    simp [hsp]
  · intro c hc
    cases c with
    | null => exact absurd rfl hc
    | str s => rfl
    | num q => rfl
    | boolean b => rfl

/-- Witness for the amended C6 on `sponsStrTable`: the text cell `yes`
survives unchanged, and the fill rule maps null to boolean `false`. -/
theorem C6_witness :
    [c6Row].map (fun cr => cr.is_sponsored) =
      (keptRows sponsStrTable).map (fun r => sponsoredFill r.is_sponsored) ∧
    sponsoredFill RawCell.null = RawCell.boolean false := by
  have h := @C6_sponsored_fill sponsStrTable [] [c6Row] (by decide)
  exact ⟨h.2.1 rfl, h.2.2.1⟩

/-- C7: with the `has_coupon` column present, the derived
`has_coupon_bool` is true exactly when the raw cell is non-null and its
text form is longer than 3 characters (a null cell prints as the
three-character `nan`, hence false). -/
theorem C7_coupon_length {t : RawTable} {w : List String} {rows : List CleanRow}
    (h : loadData t = Except.ok (w, rows)) (hc : t.hasCoupon = true) :
    rows.map (fun cr => cr.has_coupon_bool) =
      (keptRows t).map (fun r =>
        decide (r.has_coupon ≠ none ∧ 3 < (astypeStr r.has_coupon).length)) := by
  obtain ⟨-, hrows⟩ := loadData_ok_inv h
  subst hrows
  rw [List.map_map]
  apply List.map_congr_left
  intro r hr
  show (mkCleanRow t (meanRatingOf t) r).has_coupon_bool = _
  rw [mkCleanRow_coupon]
  cases hcc : r.has_coupon with
  | none =>
    simp only [hc, if_true, astypeStr]
    decide
  | some s =>
    simp only [hc, if_true, astypeStr]
    rw [decide_eq_decide]
    simp

/-- Witness for C7 on `exTable`: the long coupon text of the first row
yields true, the two-character `no` of the second yields false. -/
theorem C7_witness :
    [exClean1, exClean3].map (fun cr => cr.has_coupon_bool) =
      (keptRows exTable).map (fun r =>
        decide (r.has_coupon ≠ none ∧ 3 < (astypeStr r.has_coupon).length)) ∧
    exClean1.has_coupon_bool = true ∧ exClean3.has_coupon_bool = false := by
  have h := @C7_coupon_length exTable [] [exClean1, exClean3] (by decide) rfl
  exact ⟨h, rfl, rfl⟩

/-- C10 (implicit): with the `is_best_seller` column present, the
coercion `astype(bool)` maps every non-empty string — including the
literal texts `False` and `no` — to true, and maps a null (missing) cell
to true as well (`bool(nan)` is true); only already-falsy values (the
empty string, the number 0, boolean false) map to false. -/
theorem C10_best_seller_truthiness {t : RawTable} {w : List String} {rows : List CleanRow}
    (h : loadData t = Except.ok (w, rows)) (hb : t.hasBestSeller = true) :
    rows.map (fun cr => cr.is_best_seller) =
      (keptRows t).map (fun r => pyBool r.is_best_seller) ∧
    pyBool (RawCell.str "False") = true ∧
    pyBool (RawCell.str "no") = true ∧
    pyBool RawCell.null = true ∧
    (∀ s : String, s ≠ "" → pyBool (RawCell.str s) = true) ∧
    pyBool (RawCell.str "") = false ∧
    pyBool (RawCell.num 0) = false ∧
    pyBool (RawCell.boolean false) = false := by
  obtain ⟨-, hrows⟩ := loadData_ok_inv h
  subst hrows
  refine ⟨?_, by decide, by decide, rfl, ?_, by decide, by decide, rfl⟩
  · rw [List.map_map]
    apply List.map_congr_left
    intro r hr
    simp [hb]
  · intro s hs
    simpa [pyBool] using hs

/-- Witness for C10 on `exTable`: the raw text `False` of the first row
and the missing cell of the second both coerce to true. -/
theorem C10_witness :
    [exClean1, exClean3].map (fun cr => cr.is_best_seller) =
      (keptRows exTable).map (fun r => pyBool r.is_best_seller) ∧
    pyBool (RawCell.str "False") = true ∧ pyBool RawCell.null = true := by
  have h := @C10_best_seller_truthiness exTable [] [exClean1, exClean3] (by decide) rfl
  exact ⟨h.1, h.2.1, h.2.2.2.1⟩

end ClaimProofs

end ETrend
